import Mathlib

/-!
Verification of the grass-field subsystem and its collaborators
(`tigerabrodi/fun-threejs-world`).

The placement pass, wind vertex function and `GrassSystem` are embedded
from the TSL/TypeScript code in `CLAUDE-PLAN.md` (`createGrassInstances`,
`createGrassVertexShader`, `GrassSystem`); the camera and animation state
machine from `src/core/ThirdPersonCamera.ts` and
`src/core/AnimationStateMachine.ts`.  GPU floats are modelled as real
numbers; `fract`, `mod` and `floor` are the GLSL/TSL float operations.
-/

namespace GrassWorld

noncomputable section

/-- One entry of the instance storage buffer: `vec4(x, z, rotation, height)`. -/
structure GrassRecord where
  x : ℝ
  z : ℝ
  rot : ℝ
  height : ℝ

/-- GLSL/TSL float `mod(x, y) = x - y * floor(x / y)`. -/
def fmod (x y : ℝ) : ℝ := x - y * ⌊x / y⌋

/-- TSL `fract(x)`: the fractional part `x - floor(x)`. -/
def fract (x : ℝ) : ℝ := Int.fract x

/-- `const hash = sin(float(i).mul(127.1)).fract()` — index-keyed hash. -/
def hash (i : ℕ) : ℝ := fract (Real.sin ((i : ℝ) * 127.1))

/-- `const hash2 = sin(float(i).mul(269.5)).fract()` — second index-keyed hash. -/
def hash2 (i : ℕ) : ℝ := fract (Real.sin ((i : ℝ) * 269.5))

/-- `const gridSize = Math.sqrt(count)` — note: no ceiling is taken. -/
def gridSize (count : ℕ) : ℝ := Real.sqrt (count : ℝ)

/-- `const gridX = float(i).mod(gridSize)`. -/
def gridX (count i : ℕ) : ℝ := fmod (i : ℝ) (gridSize count)

/-- `const gridZ = float(i).div(gridSize).floor()`. -/
def gridZ (count i : ℕ) : ℝ := (⌊(i : ℝ) / gridSize count⌋ : ℤ)

/-- `const spacing = fieldSize / gridSize`. -/
def spacing (count : ℕ) (fieldSize : ℝ) : ℝ := fieldSize / gridSize count

/-- The pre-jitter base position, x component: the `gridX.mul(spacing)`
subterm of `x` before the jitter summand is added. -/
def baseX (count : ℕ) (fieldSize : ℝ) (i : ℕ) : ℝ :=
  gridX count i * spacing count fieldSize

/-- The pre-jitter base position, z component: the `gridZ.mul(spacing)`
subterm of `z` before the jitter summand is added. -/
def baseZ (count : ℕ) (fieldSize : ℝ) (i : ℕ) : ℝ :=
  gridZ count i * spacing count fieldSize

/-- The record the compute kernel writes at `instanceIndex = i`:
`x = gridX*spacing + (hash*spacing - spacing*0.5)`,
`z = gridZ*spacing + (hash2*spacing - spacing*0.5)`,
`rotation = hash * (π*2)`, `height = 0.3 + hash2 * 0.4`. -/
def grassRecord (count : ℕ) (fieldSize : ℝ) (i : ℕ) : GrassRecord :=
  { x := baseX count fieldSize i +
      (hash i * spacing count fieldSize - spacing count fieldSize * 0.5)
    z := baseZ count fieldSize i +
      (hash2 i * spacing count fieldSize - spacing count fieldSize * 0.5)
    rot := hash i * (Real.pi * 2)
    height := 0.3 + hash2 i * 0.4 }

/-- `createGrassInstances(count, fieldSize)`: the compute pass runs the
kernel once per instance index `0 .. count-1`, filling the buffer. -/
def createGrassInstances (count : ℕ) (fieldSize : ℝ) : List GrassRecord :=
  (List.range count).map (grassRecord count fieldSize)

/-- The spec's grid size: `G = ceil(sqrt(N))`. -/
def specGridG (count : ℕ) : ℕ := ⌈Real.sqrt (count : ℝ)⌉₊

/-- The spec's pre-jitter base position: instance `i` maps to grid cell
`(i mod G, floor(i / G))` and the base position is that cell's center,
in field coordinates centered at the origin (the convention Scenario A
fixes: for N=4, F=2 the centers are `(±0.5, ±0.5)`). -/
def specBasePos (count : ℕ) (fieldSize : ℝ) (i : ℕ) : ℝ × ℝ :=
  let G := specGridG count
  let cell := fieldSize / (G : ℝ)
  ((((i % G : ℕ) : ℝ) + 0.5) * cell - fieldSize / 2,
   (((i / G : ℕ) : ℝ) + 0.5) * cell - fieldSize / 2)

/-- `const t = localPos.y.div(0.5)`: normalized height fraction, 0 at the
blade base and 1 at the tip (the blade template is 0.5 units tall). -/
def bladeT (localY : ℝ) : ℝ := localY / 0.5

/-- The wind displacement from `createGrassVertexShader`:
`sin(instancePos.x*freq + instancePos.y*freq + time*2) * strength * t*t`. -/
def windOffset (instX instZ strength freq time localY : ℝ) : ℝ :=
  Real.sin (instX * freq + instZ * freq + time * 2) * strength *
    (bladeT localY * bladeT localY)

/-- The world position returned by `createGrassVertexShader`: scale local Y
by the instance height, rotate `(localX, windOffset)` by the instance
rotation, translate by the instance position. -/
def grassWorldPos (instX instZ rot height strength freq time localX localY : ℝ) :
    ℝ × ℝ × ℝ :=
  let scaledY := localY * height
  let w := windOffset instX instZ strength freq time localY
  let cosR := Real.cos rot
  let sinR := Real.sin rot
  let rotatedX := localX * cosR - w * sinR
  let rotatedZ := localX * sinR + w * cosR
  (instX + rotatedX, scaledY, instZ + rotatedZ)

/-- `GrassSystem` from the plan: the constructor allocates the instance
buffer (`new Float32Array(count * 4)`, zero-filled) and builds the mesh;
the compute pass that populates the buffer only runs in `init()`. -/
structure GrassSystem where
  count : ℕ
  fieldSize : ℝ
  buffer : List GrassRecord
  initPending : Bool

/-- The `GrassSystem` constructor: state is created immediately; the
buffer holds zeroed records until `init()` is awaited. No validation of
`count` or `fieldSize` is performed. -/
def GrassSystem.construct (count : ℕ) (fieldSize : ℝ) : GrassSystem :=
  { count := count
    fieldSize := fieldSize
    buffer := List.replicate count ⟨0, 0, 0, 0⟩
    initPending := true }

/-- `async init(renderer)`: runs the compute pass once, populating the
instance buffer. -/
def GrassSystem.init (s : GrassSystem) : GrassSystem :=
  { s with buffer := createGrassInstances s.count s.fieldSize
           initPending := false }

/-- Rendering draws the mesh with whatever the instance buffer currently
holds; the source performs no initialization check and raises no error. -/
def GrassSystem.render (s : GrassSystem) : List GrassRecord := s.buffer

/-- `minPhi = Math.PI / 18` (~10 degrees). -/
def minPhi : ℝ := Real.pi / 18

/-- `maxPhi = (Math.PI * 80) / 180` (~80 degrees). -/
def maxPhi : ℝ := Real.pi * 80 / 180

/-- `sensitivity = 0.002`. -/
def sensitivity : ℝ := 0.002

/-- The mutable state of `ThirdPersonCamera` relevant to the orbit angles:
the spherical angles and whether a target has been set.  (The smoothed
camera position is derived state and never feeds back into `phi`.) -/
structure ThirdPersonCamera where
  theta : ℝ
  phi : ℝ
  hasTarget : Bool

/-- Field initializers of `ThirdPersonCamera`: `theta = Math.PI`,
`phi = Math.PI / 3`, `target = null`. -/
def ThirdPersonCamera.create : ThirdPersonCamera :=
  { theta := Real.pi
    phi := Real.pi / 3
    hasTarget := false }

/-- `setTarget({ target })`: records the target; the angles are untouched. -/
def ThirdPersonCamera.setTarget (c : ThirdPersonCamera) : ThirdPersonCamera :=
  { c with hasTarget := true }

/-- `update({ delta })`: returns unchanged when no target is set; otherwise
applies the accumulated mouse delta to the angles and clamps `phi` with
`Math.max(minPhi, Math.min(maxPhi, phi))`. -/
def ThirdPersonCamera.update (c : ThirdPersonCamera)
    (mouseDeltaX mouseDeltaY : ℝ) : ThirdPersonCamera :=
  if c.hasTarget then
    { c with
      theta := c.theta - mouseDeltaX * sensitivity
      phi := max minPhi (min maxPhi (c.phi - mouseDeltaY * sensitivity)) }
  else c

end

/-- A registered animation state: `name` is the key used by `addState` and
`setState`; `id` stands for the object's identity, so that the source's
reference comparison `next === this.current` is equality of records. -/
structure State where
  name : String
  id : ℕ
  deriving DecidableEq

/-- `AnimationStateMachine`: a `Map` from names to states (modelled as an
association list where the most recent `set` wins) and the current state. -/
structure AnimationStateMachine where
  states : List (String × State)
  current : Option State
  deriving DecidableEq

/-- The machine's initial state: no registered states, `current = null`. -/
def AnimationStateMachine.create : AnimationStateMachine :=
  { states := [], current := none }

/-- `addState({ state })`: `this.states.set(state.name, state)`. -/
def AnimationStateMachine.addState (m : AnimationStateMachine) (s : State) :
    AnimationStateMachine :=
  { m with states := (s.name, s) :: m.states }

/-- `setState({ name })`: look the name up; if absent or identical to the
current state, return with no effect; otherwise invoke `next.enter({prev})`
(the second component records that call) and switch `current`. -/
def AnimationStateMachine.setState (m : AnimationStateMachine) (name : String) :
    AnimationStateMachine × Option (State × Option State) :=
  match m.states.lookup name with
  | none => (m, none)
  | some next =>
      if some next = m.current then (m, none)
      else ({ m with current := some next }, some (next, m.current))

/-! ### Evaluation lemmas for the placement grid -/

theorem gridSize_sq (G : ℕ) : gridSize (G * G) = (G : ℝ) := by
  unfold gridSize
  push_cast
  exact Real.sqrt_mul_self (Nat.cast_nonneg G)

theorem floor_nat_div (i G : ℕ) :
    ((⌊(i : ℝ) / (G : ℝ)⌋ : ℤ) : ℝ) = ((i / G : ℕ) : ℝ) := by
  rw [← natCast_floor_eq_intCast_floor
    (div_nonneg (Nat.cast_nonneg i) (Nat.cast_nonneg G))]
  norm_cast
  exact Nat.floor_div_eq_div (α := ℝ) i G

theorem gridZ_sq (G i : ℕ) : gridZ (G * G) i = ((i / G : ℕ) : ℝ) := by
  unfold gridZ
  rw [gridSize_sq]
  exact_mod_cast floor_nat_div i G

theorem gridX_sq (G i : ℕ) : gridX (G * G) i = ((i % G : ℕ) : ℝ) := by
  unfold gridX fmod
  rw [gridSize_sq, floor_nat_div i G]
  have hmod : ((G * (i / G) + i % G : ℕ) : ℝ) = (i : ℝ) := by
    rw [Nat.div_add_mod i G]
  push_cast at hmod
  linarith

theorem real_sqrt_four : Real.sqrt ((4 : ℕ) : ℝ) = 2 := by
  rw [show ((4 : ℕ) : ℝ) = 2 * 2 by norm_num,
    Real.sqrt_mul_self (by norm_num : (0 : ℝ) ≤ 2)]

theorem gridSize_four : gridSize 4 = 2 := real_sqrt_four

theorem spacing_four_two : spacing 4 2 = 1 := by
  unfold spacing
  rw [gridSize_four]
  norm_num

theorem specGridG_four : specGridG 4 = 2 := by
  unfold specGridG
  rw [real_sqrt_four]
  norm_num

/-! ### C1 -/

/-- C1: the claim that the pre-jitter base position sits at the center of
grid cell `(i mod G, floor (i / G))` with `G = ceil (sqrt N)` fails at
`N = 4`, `F = 2`, `i = 0`: the code's base position is `(0, 0)` while the
claimed cell center is `(-0.5, -0.5)`. -/
theorem base_position_not_cell_center :
    (baseX 4 2 0, baseZ 4 2 0) ≠ specBasePos 4 2 0 := by
  have hx0 : gridX 4 0 = 0 := by simpa using gridX_sq 2 0
  have hz0 : gridZ 4 0 = 0 := by simpa using gridZ_sq 2 0
  have hbase : (baseX 4 2 0, baseZ 4 2 0) = ((0 : ℝ), (0 : ℝ)) := by
    simp [baseX, baseZ, hx0, hz0]
  have hspec : specBasePos 4 2 0 = (-0.5, -0.5) := by
    simp only [specBasePos, specGridG_four]
    norm_num
  rw [hbase, hspec]
  simp only [ne_eq, Prod.mk.injEq, not_and]
  norm_num

/-- C1 (amended): for a perfect-square instance count `N = G * G` the
placement pass maps instance `i` to grid cell `(i mod G, floor (i / G))`
with `G = sqrt N` (no ceiling is applied), and computes the pre-jitter base
position at that cell's lower corner `(gridX * F/G, gridZ * F/G)` — the
cell corner, not its center. -/
theorem placement_grid_corner (G : ℕ) (fieldSize : ℝ) (i : ℕ)
    (hG : 1 ≤ G) (hF : 0 < fieldSize) (hi : i < G * G) :
    gridX (G * G) i = ((i % G : ℕ) : ℝ) ∧
    gridZ (G * G) i = ((i / G : ℕ) : ℝ) ∧
    baseX (G * G) fieldSize i = ((i % G : ℕ) : ℝ) * (fieldSize / (G : ℝ)) ∧
    baseZ (G * G) fieldSize i = ((i / G : ℕ) : ℝ) * (fieldSize / (G : ℝ)) := by
  have hx := gridX_sq G i
  have hz := gridZ_sq G i
  refine ⟨hx, hz, ?_, ?_⟩ <;> simp [baseX, baseZ, spacing, gridSize_sq, hx, hz]

/-- Witness for C1's amended theorem at `G = 2`, `F = 2`, `i = 3`. -/
theorem placement_grid_corner_witness :
    1 ≤ 2 ∧ (0 : ℝ) < 2 ∧ 3 < 2 * 2 ∧
    (gridX (2 * 2) 3 = ((3 % 2 : ℕ) : ℝ) ∧
     gridZ (2 * 2) 3 = ((3 / 2 : ℕ) : ℝ) ∧
     baseX (2 * 2) 2 3 = ((3 % 2 : ℕ) : ℝ) * ((2 : ℝ) / ((2 : ℕ) : ℝ)) ∧
     baseZ (2 * 2) 2 3 = ((3 / 2 : ℕ) : ℝ) * ((2 : ℝ) / ((2 : ℕ) : ℝ))) :=
  ⟨by norm_num, by norm_num, by norm_num,
    placement_grid_corner 2 2 3 (by norm_num) (by norm_num) (by norm_num)⟩

/-! ### C2 -/

/-- C2: the claim that Scenario A's pre-jitter base positions are the cell
centers `(±0.5, ±0.5)` fails: record 0's pre-jitter base position is
`(0, 0)`, which is none of the four claimed centers. -/
theorem scenario_a_center_mismatch :
    (baseX 4 2 0, baseZ 4 2 0) = ((0 : ℝ), (0 : ℝ)) ∧
    (0 : ℝ) ≠ -0.5 ∧ (0 : ℝ) ≠ 0.5 := by
  have hx0 : gridX 4 0 = 0 := by simpa using gridX_sq 2 0
  have hz0 : gridZ 4 0 = 0 := by simpa using gridZ_sq 2 0
  refine ⟨by simp [baseX, baseZ, hx0, hz0], by norm_num, by norm_num⟩

/-- C2 (amended): for `N = 4`, `F = 2` the placement pass produces exactly
4 records arranged as a 2×2 grid whose pre-jitter base positions are the
cell corners `(0,0)`, `(1,0)`, `(0,1)` and `(1,1)`. -/
theorem scenario_a_grid_corners :
    (createGrassInstances 4 2).length = 4 ∧
    (baseX 4 2 0, baseZ 4 2 0) = ((0 : ℝ), (0 : ℝ)) ∧
    (baseX 4 2 1, baseZ 4 2 1) = ((1 : ℝ), (0 : ℝ)) ∧
    (baseX 4 2 2, baseZ 4 2 2) = ((0 : ℝ), (1 : ℝ)) ∧
    (baseX 4 2 3, baseZ 4 2 3) = ((1 : ℝ), (1 : ℝ)) := by
  have hx0 : gridX 4 0 = 0 := by simpa using gridX_sq 2 0
  have hx1 : gridX 4 1 = 1 := by simpa using gridX_sq 2 1
  have hx2 : gridX 4 2 = 0 := by simpa using gridX_sq 2 2
  have hx3 : gridX 4 3 = 1 := by simpa using gridX_sq 2 3
  have hz0 : gridZ 4 0 = 0 := by simpa using gridZ_sq 2 0
  have hz1 : gridZ 4 1 = 0 := by simpa using gridZ_sq 2 1
  have hz2 : gridZ 4 2 = 1 := by simpa using gridZ_sq 2 2
  have hz3 : gridZ 4 3 = 1 := by simpa using gridZ_sq 2 3
  refine ⟨by simp [createGrassInstances], ?_, ?_, ?_, ?_⟩ <;>
    simp [baseX, baseZ, spacing_four_two, hx0, hx1, hx2, hx3, hz0, hz1, hz2, hz3]

/-! ### C3 -/

/-- C3: placement is deterministic — any two runs of the pass with the same
`(count, fieldSize)` produce identical record lists, the list has exactly
`count` entries, and entry `i` is the pure index-keyed function
`grassRecord count fieldSize i`, independent of every other entry and of
wall-clock time (time is not an input of the pass at all). -/
theorem placement_deterministic (count : ℕ) (fieldSize : ℝ) (hF : 0 < fieldSize)
    (run1 run2 : List GrassRecord)
    (h1 : run1 = createGrassInstances count fieldSize)
    (h2 : run2 = createGrassInstances count fieldSize) :
    run1 = run2 ∧ run1.length = count ∧
      ∀ i, i < count → run1[i]? = some (grassRecord count fieldSize i) := by
  subst h1 h2
  refine ⟨rfl, by simp [createGrassInstances], ?_⟩
  intro i hi
  simp [createGrassInstances, List.getElem?_map, List.getElem?_range, hi]

/-- Witness for C3 at `count = 1`, `fieldSize = 1`. -/
theorem placement_deterministic_witness :
    (0 : ℝ) < 1 ∧
    (createGrassInstances 1 1 = createGrassInstances 1 1 ∧
     (createGrassInstances 1 1).length = 1 ∧
     ∀ i, i < 1 → (createGrassInstances 1 1)[i]? = some (grassRecord 1 1 i)) :=
  ⟨by norm_num, placement_deterministic 1 1 (by norm_num) _ _ rfl rfl⟩

/-! ### C4 -/

/-- C4: every record the placement pass produces has rotation in
`[0, 2π)` and height scale in the declared bounds `[0.3, 0.7]`
(`0.3` plus a hash in `[0, 1)` times `0.4`). -/
theorem record_ranges (count : ℕ) (fieldSize : ℝ) (i : ℕ) (hi : i < count) :
    0 ≤ (grassRecord count fieldSize i).rot ∧
    (grassRecord count fieldSize i).rot < 2 * Real.pi ∧
    0.3 ≤ (grassRecord count fieldSize i).height ∧
    (grassRecord count fieldSize i).height ≤ 0.7 := by
  have h1 : 0 ≤ hash i := Int.fract_nonneg _
  have h2 : hash i < 1 := Int.fract_lt_one _
  have h3 : 0 ≤ hash2 i := Int.fract_nonneg _
  have h4 : hash2 i < 1 := Int.fract_lt_one _
  have hpi := Real.pi_pos
  refine ⟨?_, ?_, ?_, ?_⟩ <;> simp only [grassRecord] <;> nlinarith

/-- Witness for C4 at `count = 1`, `fieldSize = 1`, `i = 0`. -/
theorem record_ranges_witness :
    0 < 1 ∧
    (0 ≤ (grassRecord 1 1 0).rot ∧
     (grassRecord 1 1 0).rot < 2 * Real.pi ∧
     0.3 ≤ (grassRecord 1 1 0).height ∧
     (grassRecord 1 1 0).height ≤ 0.7) :=
  ⟨by norm_num, record_ranges 1 1 0 (by norm_num)⟩

/-! ### C5 -/

/-- C5: at local height fraction 0 (the blade base, `localY = 0`) the wind
displacement is exactly 0 for every instance, every elapsed time and every
wind strength; the vertex-shader output at the base is the rotated,
translated blade position with no wind term. -/
theorem wind_zero_at_base
    (instX instZ rot height strength freq time localX : ℝ) :
    windOffset instX instZ strength freq time 0 = 0 ∧
    grassWorldPos instX instZ rot height strength freq time localX 0 =
      (instX + localX * Real.cos rot, 0, instZ + localX * Real.sin rot) := by
  constructor
  · simp [windOffset, bladeT]
  · simp [grassWorldPos, windOffset, bladeT]

/-! ### C6 -/

/-- C6: with strength `0.3`, spatial frequency `0.5` and elapsed time `0`,
the magnitude of the wind displacement at the blade tip
(`localY = 0.5`, height fraction 1) is at most `0.3` for every instance. -/
theorem tip_displacement_bounded (instX instZ : ℝ) :
    |windOffset instX instZ 0.3 0.5 0 0.5| ≤ 0.3 := by
  have ht : bladeT 0.5 = 1 := by unfold bladeT; norm_num
  unfold windOffset
  rw [ht]
  have hs := Real.abs_sin_le_one (instX * 0.5 + instZ * 0.5 + 0 * 2)
  calc |Real.sin (instX * 0.5 + instZ * 0.5 + 0 * 2) * 0.3 * (1 * 1)|
      = |Real.sin (instX * 0.5 + instZ * 0.5 + 0 * 2)| * 0.3 := by
        rw [abs_mul, abs_mul]
        norm_num
    _ ≤ 1 * 0.3 :=
        mul_le_mul_of_nonneg_right hs (by norm_num)
    _ = 0.3 := by norm_num

/-! ### C7 -/

/-- C7 (code behavior at the failing input): a `GrassSystem` constructed
with `count = 4`, `fieldSize = 2` and rendered before `init()` completes
does not fail fast — it silently renders the zero-filled instance buffer
(four records of all zeroes) while initialization is still pending. -/
theorem render_before_init_zeroed :
    (GrassSystem.construct 4 2).render = List.replicate 4 ⟨0, 0, 0, 0⟩ ∧
    (GrassSystem.construct 4 2).initPending = true :=
  ⟨rfl, rfl⟩

/-! ### C8 -/

/-- C8 (code behavior at the failing input): constructing the grass system
with `fieldSize = 0` is not rejected — a full object is produced, and the
placement pass even completes, writing all 4 records. -/
theorem invalid_config_accepted :
    (GrassSystem.construct 4 0).buffer.length = 4 ∧
    ((GrassSystem.construct 4 0).init).buffer = createGrassInstances 4 0 ∧
    (createGrassInstances 4 0).length = 4 := by
  refine ⟨by simp [GrassSystem.construct], rfl, by simp [createGrassInstances]⟩

/-! ### C9 -/

theorem minPhi_le_maxPhi : minPhi ≤ maxPhi := by
  unfold minPhi maxPhi
  linarith [Real.pi_pos]

theorem update_phi_bounded (c : ThirdPersonCamera) (dx dy : ℝ)
    (h : minPhi ≤ c.phi ∧ c.phi ≤ maxPhi) :
    minPhi ≤ (c.update dx dy).phi ∧ (c.update dx dy).phi ≤ maxPhi := by
  unfold ThirdPersonCamera.update
  cases hct : c.hasTarget
  · simpa [hct] using h
  · simp only [hct, if_true]
    exact ⟨le_max_left _ _, max_le minPhi_le_maxPhi (min_le_left _ _)⟩

theorem foldl_update_phi_bounded (deltas : List (ℝ × ℝ))
    (c : ThirdPersonCamera) (h : minPhi ≤ c.phi ∧ c.phi ≤ maxPhi) :
    minPhi ≤ (deltas.foldl (fun s d => s.update d.1 d.2) c).phi ∧
      (deltas.foldl (fun s d => s.update d.1 d.2) c).phi ≤ maxPhi := by
  induction deltas generalizing c with
  | nil => exact h
  | cons d rest ih => exact ih _ (update_phi_bounded _ _ _ h)

/-- C9: after `setTarget` and after every subsequent `update`, for any
sequence of accumulated mouse deltas, the camera's vertical angle `phi`
stays within `[π/18, 80·π/180]` (about 10 to 80 degrees). -/
theorem camera_phi_bounded (deltas : List (ℝ × ℝ)) :
    minPhi ≤ (deltas.foldl (fun s d => s.update d.1 d.2)
        ThirdPersonCamera.create.setTarget).phi ∧
      (deltas.foldl (fun s d => s.update d.1 d.2)
        ThirdPersonCamera.create.setTarget).phi ≤ maxPhi := by
  apply foldl_update_phi_bounded
  unfold ThirdPersonCamera.create ThirdPersonCamera.setTarget minPhi maxPhi
  constructor
  · simp only
    linarith [Real.pi_pos]
  · simp only
    linarith [Real.pi_pos]

/-! ### C10 -/

/-- C10: calling `setState` with a name that was never registered, or with
a name whose registered state is already the current state, leaves
`current` unchanged and invokes no `enter` callback. -/
theorem setState_noop (m : AnimationStateMachine) (name : String)
    (h : m.states.lookup name = none ∨
      ∃ s, m.states.lookup name = some s ∧ m.current = some s) :
    (m.setState name).1.current = m.current ∧ (m.setState name).2 = none := by
  unfold AnimationStateMachine.setState
  rcases h with h | ⟨s, hs, hc⟩
  · rw [h]
    exact ⟨rfl, rfl⟩
  · rw [hs, hc]
    simp [hc]

/-- Witness for C10: a machine whose current state is the registered state
named `"idle"`; `setState "idle"` is a no-op with no `enter` call. -/
theorem setState_noop_witness :
    (∃ s, ((AnimationStateMachine.create.addState ⟨"idle", 0⟩).setState
        "idle").1.states.lookup "idle" = some s ∧
      ((AnimationStateMachine.create.addState ⟨"idle", 0⟩).setState
        "idle").1.current = some s) ∧
    ((((AnimationStateMachine.create.addState ⟨"idle", 0⟩).setState
        "idle").1.setState "idle").1.current =
      ((AnimationStateMachine.create.addState ⟨"idle", 0⟩).setState
        "idle").1.current ∧
     (((AnimationStateMachine.create.addState ⟨"idle", 0⟩).setState
        "idle").1.setState "idle").2 = none) :=
  ⟨⟨⟨"idle", 0⟩, by decide, by decide⟩,
    setState_noop _ "idle" (Or.inr ⟨⟨"idle", 0⟩, by decide, by decide⟩)⟩

end GrassWorld
